import Mathlib

/-!
Verification development for a simulated preemptive CPU scheduler.

The repository contains two realisations of the scheduler core:
* an in-process user-space simulator (`src/kernel/process.cpp`,
  `src/kernel/ready_queue.cpp`, `src/kernel/scheduler.cpp`), and
* an in-kernel variant (`kernel_module/custom_scheduler.c`).

Both are embedded shallowly below: C++/C `int` is modelled as `Int`
(no overflow occurs at the magnitudes exercised), unsigned counters as
`Nat`, and the shared-pointer process store as an association of pids
to PCB records.
-/

/-- The five process states shared by both realisations
(`ProcessState` in `process.h`, `enum proc_state` in the kernel module). -/
inductive ProcessState where
  | NEW
  | READY
  | RUNNING
  | WAITING
  | TERMINATED
deriving Repr, DecidableEq

namespace Sim

/-- The PCB of the in-process simulator (`class Process` in `process.h`).
Fields follow the C++ members; `waitTime`, `turnaroundTime`, `arrivalTime`
are the public mutable timing fields. -/
structure Process where
  pid : Int
  name : String
  basePriority : Int
  effectivePriority : Int
  burstTime : Int
  remainingTime : Int
  state : ProcessState
  arrivalTime : Int
  waitTime : Int
  turnaroundTime : Int
deriving Repr, DecidableEq

/-- `Process::Process(pid, name, priority, burstTime)` from `process.cpp`:
effective priority starts equal to the base priority, remaining time equal
to the burst time, state `NEW`, timing fields zero. -/
def Process.make (pid : Int) (name : String) (priority burstTime : Int) : Process :=
  { pid := pid, name := name, basePriority := priority,
    effectivePriority := priority, burstTime := burstTime,
    remainingTime := burstTime, state := ProcessState.NEW,
    arrivalTime := 0, waitTime := 0, turnaroundTime := 0 }

/-- `Process::execute(timeSlice)` from `process.cpp` lines 20-27:
no-op unless RUNNING; subtracts `min(timeSlice, remaining)` and becomes
TERMINATED when the remaining time hits zero. -/
def Process.execute (p : Process) (timeSlice : Int) : Process :=
  if p.state ≠ ProcessState.RUNNING then p
  else
    let execTime := min timeSlice p.remainingTime
    let rem := p.remainingTime - execTime
    { p with remainingTime := rem,
             state := if rem = 0 then ProcessState.TERMINATED else p.state }

/-- `Process::applyAging(agingFactor)` from `process.cpp` lines 29-32:
`effectivePriority_ = basePriority_ + (waitTime / agingFactor)`.
C++ `int` division truncates toward zero, which is `Int.tdiv`.
(For `agingFactor = 0` the C++ expression is undefined behaviour;
no statement below evaluates it at zero.) -/
def Process.applyAging (p : Process) (agingFactor : Int) : Process :=
  { p with effectivePriority := p.basePriority + Int.tdiv p.waitTime agingFactor }

/-- The integer part of `struct SchedulerStats` (`scheduler.h` lines 12-22).
The `double` members (`cpuUtilization`, `averageWaitTime`,
`averageTurnaroundTime`) are floating point and are not needed by any
statement below, so they are not modelled. -/
structure SchedulerStats where
  totalProcesses : Int
  runningProcesses : Int
  readyProcesses : Int
  waitingProcesses : Int
  terminatedProcesses : Int
  contextSwitchCount : Int
deriving Repr, DecidableEq

/-- State of `class Scheduler` (`scheduler.h` lines 24-75). The C++
collections hold `shared_ptr<Process>` aliases of the entries of
`allProcesses_`; here `allProcesses` is the authoritative store and the
ready queue, running slot and blocked list refer to processes by pid. -/
structure Scheduler where
  allProcesses : List Process
  readyQueue : List Int
  currentProcess : Option Int
  blockedProcesses : List (Int × Int)
  ioSimulationCounter : Int
  timeQuantumMs : Int
  agingFactorSec : Int
  stats : SchedulerStats
  nextPid : Int
deriving Repr, DecidableEq

/-- A freshly constructed `Scheduler` (defaults from `scheduler.h`:
quantum 100 ms, aging factor 5 s, first pid 1). -/
def Scheduler.init : Scheduler :=
  { allProcesses := [], readyQueue := [], currentProcess := none,
    blockedProcesses := [], ioSimulationCounter := 0, timeQuantumMs := 100,
    agingFactorSec := 5, stats := ⟨0, 0, 0, 0, 0, 0⟩, nextPid := 1 }

/-- Mutate the first list entry satisfying `pred` (the
`for (auto& p : allProcesses_) { if ... break; }` pattern used by the
Control API functions in `scheduler.cpp`). -/
def updateFirst (pred : Process → Bool) (f : Process → Process) :
    List Process → List Process
  | [] => []
  | p :: rest => if pred p then f p :: rest else p :: updateFirst pred f rest

/-- Dereference a pid through the all-processes store (the shared_ptr the
C++ collections hold). -/
def lookupProc (s : Scheduler) (pid : Int) : Option Process :=
  s.allProcesses.find? (fun p => p.pid == pid)

/-- Per-PCB effect of one pass of `Scheduler::updateStats`
(`scheduler.cpp` lines 171-191): a READY process accrues one time
quantum of wait time; a non-TERMINATED process gets its turnaround
refreshed to `now - arrivalTime`. -/
def updateStatsProc (now quantum : Int) (p : Process) : Process :=
  let p1 := if p.state = ProcessState.READY
            then { p with waitTime := p.waitTime + quantum } else p
  if p1.state ≠ ProcessState.TERMINATED
  then { p1 with turnaroundTime := now - p1.arrivalTime } else p1

/-- Number of store entries in a given state (the per-state counters of
`Scheduler::updateStats`). -/
def countState (st : ProcessState) (l : List Process) : Int :=
  ((l.filter (fun p => p.state == st)).length : Int)

/-- `Scheduler::updateStats` (`scheduler.cpp` lines 160-209): one pass over
the all-processes list that both mutates the timing fields of the PCBs
and recomputes the snapshot counters. `contextSwitchCount` is copied
from the previous snapshot (line 197); nothing ever increments it. -/
def Scheduler.updateStats (now : Int) (s : Scheduler) : Scheduler :=
  let procs := s.allProcesses.map (updateStatsProc now s.timeQuantumMs)
  { s with allProcesses := procs,
           stats := { totalProcesses := (procs.length : Int),
                      runningProcesses := countState ProcessState.RUNNING procs,
                      readyProcesses := countState ProcessState.READY procs,
                      waitingProcesses := countState ProcessState.WAITING procs,
                      terminatedProcesses := countState ProcessState.TERMINATED procs,
                      contextSwitchCount := s.stats.contextSwitchCount } }

/-- `Scheduler::createProcess` (`scheduler.cpp` lines 14-33): allocate the
next pid, record the arrival time, append to the all-processes list,
enqueue into the ready queue, set the state to READY, then call
`updateStats`. No validation of `priority` or `burstTime` is performed.
(The source sets NEW before READY; only the final READY state is ever
observable, so the store receives the READY PCB directly.) -/
def Scheduler.createProcess (name : String) (priority burstTime : Int)
    (now : Int) (s : Scheduler) : Scheduler :=
  let pid := s.nextPid
  let proc := { Process.make pid name priority burstTime with
                arrivalTime := now, state := ProcessState.READY }
  Scheduler.updateStats now
    { s with nextPid := pid + 1,
             allProcesses := s.allProcesses ++ [proc],
             readyQueue := s.readyQueue ++ [pid] }

/-- The mutation part of `Scheduler::terminateProcess` (`scheduler.cpp`
lines 35-44): mark the first store entry with the given pid TERMINATED.
The PCB is not removed from the ready queue or the running slot. -/
def terminateCore (pid : Int) (s : Scheduler) : Scheduler :=
  { s with
    allProcesses :=
      updateFirst (fun p => p.pid == pid)
        (fun p => { p with state := ProcessState.TERMINATED }) s.allProcesses }

/-- `Scheduler::terminateProcess`: the mutation followed by `updateStats`. -/
def Scheduler.terminateProcess (pid now : Int) (s : Scheduler) : Scheduler :=
  Scheduler.updateStats now (terminateCore pid s)

/-- The mutation part of `Scheduler::blockProcess` (`scheduler.cpp` lines
46-55): mark the first store entry with the given pid WAITING — but only
if it is currently RUNNING. A READY (or any other) process is left
untouched; nothing is inserted into the blocked list and no wakeup
deadline exists. -/
def blockCore (pid : Int) (s : Scheduler) : Scheduler :=
  { s with
    allProcesses :=
      updateFirst (fun p => p.pid == pid && p.state == ProcessState.RUNNING)
        (fun p => { p with state := ProcessState.WAITING }) s.allProcesses }

/-- `Scheduler::blockProcess`: the mutation followed by `updateStats`. -/
def Scheduler.blockProcess (pid now : Int) (s : Scheduler) : Scheduler :=
  Scheduler.updateStats now (blockCore pid s)

/-- The mutation part of `Scheduler::unblockProcess` (`scheduler.cpp`
lines 57-67): the first WAITING store entry with the given pid becomes
READY and is enqueued. -/
def unblockCore (pid : Int) (s : Scheduler) : Scheduler :=
  let pred := fun (p : Process) => p.pid == pid && p.state == ProcessState.WAITING
  { s with
    allProcesses :=
      updateFirst pred (fun p => { p with state := ProcessState.READY }) s.allProcesses,
    readyQueue :=
      if s.allProcesses.any pred then s.readyQueue ++ [pid] else s.readyQueue }

/-- `Scheduler::unblockProcess`: the mutation followed by `updateStats`. -/
def Scheduler.unblockProcess (pid now : Int) (s : Scheduler) : Scheduler :=
  Scheduler.updateStats now (unblockCore pid s)

/-- Effective priority of the process a queue entry refers to (the key
`ProcessComparator` in `ready_queue.h` compares). Queue pids always
resolve in the states considered; a dangling pid defaults to key 0. -/
def effKey (s : Scheduler) (pid : Int) : Int :=
  match lookupProc s pid with
  | some p => p.effectivePriority
  | none => 0

/-- The entry `minPid` continues scanning with the better of `best` and
the next entry; used to locate the top of the priority queue. -/
def minPidAux (s : Scheduler) (best : Int) : List Int → Int
  | [] => best
  | pid :: rest =>
    if effKey s pid < effKey s best then minPidAux s pid rest
    else minPidAux s best rest

/-- `ReadyQueue::dequeue` (`ready_queue.cpp` lines 11-17): pop the top of
the `std::priority_queue` ordered by `ProcessComparator` — a member with
minimal `effectivePriority`. Among equal keys the pop order of
`std::priority_queue` is unspecified; this model takes the earliest
queue entry among ties, and every statement below pops only from queues
whose keys are distinct or singleton. -/
def dequeueSim (s : Scheduler) : Option (Int × List Int) :=
  match s.readyQueue with
  | [] => none
  | pid :: rest =>
    let m := minPidAux s pid rest
    some (m, s.readyQueue.erase m)

/-- State of the PCB in the running slot, if any. -/
def currentState (s : Scheduler) : Option ProcessState :=
  s.currentProcess.bind (fun pid => (lookupProc s pid).map (fun p => p.state))

/-- `Scheduler::selectNextProcess` (`scheduler.cpp` lines 140-148): when
the slot is empty or holds a TERMINATED process, pop the ready queue and
mark the popped process RUNNING — with no check of the popped process's
own state. -/
def Scheduler.selectNextProcess (s : Scheduler) : Scheduler :=
  if s.currentProcess = none ∨ currentState s = some ProcessState.TERMINATED then
    match dequeueSim s with
    | none => s
    | some (pid, rest) =>
      { s with
        readyQueue := rest,
        currentProcess := some pid,
        allProcesses :=
          updateFirst (fun p => p.pid == pid)
            (fun p => { p with state := ProcessState.RUNNING }) s.allProcesses }
  else s

/-- The `currentProcess_->execute(timeQuantumMs_)` call of the scheduler
loop (`scheduler.cpp` line 89), applied through the store. -/
def Scheduler.executeCurrent (s : Scheduler) : Scheduler :=
  match s.currentProcess with
  | none => s
  | some pid =>
    { s with
      allProcesses :=
        updateFirst (fun p => p.pid == pid)
          (fun p => p.execute s.timeQuantumMs) s.allProcesses }

/-- The post-execute decision of the scheduler loop (`scheduler.cpp`
lines 91-113): increment the I/O counter; every tenth evaluation, if the
process is not TERMINATED and has more than 500 ms remaining, move it to
WAITING with I/O time `ioTime` (the source draws `100 + rand() % 200`;
the drawn value is passed in as a parameter) and clear the slot; else if
it is TERMINATED clear the slot; otherwise — in particular when an
external command made it WAITING — leave the slot untouched. -/
def Scheduler.postExecuteDecision (ioTime : Int) (s : Scheduler) : Scheduler :=
  match s.currentProcess with
  | none => s
  | some pid =>
    let cnt := s.ioSimulationCounter + 1
    let s2 := { s with ioSimulationCounter := cnt }
    match lookupProc s2 pid with
    | none => s2
    | some p =>
      if cnt % 10 == 0 ∧ p.state ≠ ProcessState.TERMINATED ∧
          p.remainingTime > 500 then
        { s2 with
          allProcesses :=
            updateFirst (fun q => q.pid == pid)
              (fun q => { q with state := ProcessState.WAITING }) s2.allProcesses,
          blockedProcesses := s2.blockedProcesses ++ [(pid, ioTime)],
          currentProcess := none }
      else if p.state = ProcessState.TERMINATED then
        { s2 with currentProcess := none }
      else s2

/-- One pass over the blocked list (`scheduler.cpp` lines 116-132):
decrement each remaining I/O time by a quantum; entries reaching zero
are woken — the process becomes READY and is enqueued — and dropped. -/
def checkBlockedAux (quantum : Int) (procs : List Process) (queue : List Int) :
    List (Int × Int) → List Process × List Int × List (Int × Int)
  | [] => (procs, queue, [])
  | (pid, t) :: rest =>
    let t2 := t - quantum
    if t2 ≤ 0 then
      let procs2 := updateFirst (fun p => p.pid == pid)
        (fun p => { p with state := ProcessState.READY }) procs
      checkBlockedAux quantum procs2 (queue ++ [pid]) rest
    else
      let (ps, q, bs) := checkBlockedAux quantum procs queue rest
      (ps, q, (pid, t2) :: bs)

/-- The blocked-list scan of the scheduler loop as a state transformer. -/
def Scheduler.checkBlocked (s : Scheduler) : Scheduler :=
  let (ps, q, bs) :=
    checkBlockedAux s.timeQuantumMs s.allProcesses s.readyQueue s.blockedProcesses
  { s with allProcesses := ps, readyQueue := q, blockedProcesses := bs }

/-- `Scheduler::applyAging` → `ReadyQueue::applyAging` (`ready_queue.cpp`
lines 38-54): every process currently in the ready queue has
`Process::applyAging` applied; the heap is rebuilt from the same
elements, so queue membership is unchanged. -/
def Scheduler.applyAging (s : Scheduler) : Scheduler :=
  { s with
    allProcesses :=
      s.allProcesses.map (fun p =>
        if s.readyQueue.contains p.pid then p.applyAging s.agingFactorSec else p) }

/-- One iteration of `Scheduler::schedulerLoop` (`scheduler.cpp` lines
83-137): dispatch, execute, post-execute decision, blocked-list scan,
aging, statistics. -/
def Scheduler.iteration (ioTime now : Int) (s : Scheduler) : Scheduler :=
  Scheduler.updateStats now
    (Scheduler.applyAging
      (Scheduler.checkBlocked
        (Scheduler.postExecuteDecision ioTime
          (Scheduler.executeCurrent
            (Scheduler.selectNextProcess s)))))

/-- Relation between a PCB before an `updateStats` pass and the same PCB
after it: the state is untouched, a READY process accrued exactly one
quantum of wait time, and a non-TERMINATED process had its turnaround
refreshed to `now - arrivalTime`. -/
def statsAccrued (quantum now : Int) (q p : Process) : Prop :=
  p.pid = q.pid ∧ p.state = q.state ∧
  (q.state = ProcessState.READY → p.waitTime = q.waitTime + quantum) ∧
  (q.state ≠ ProcessState.READY → p.waitTime = q.waitTime) ∧
  (q.state ≠ ProcessState.TERMINATED → p.turnaroundTime = now - q.arrivalTime) ∧
  (q.state = ProcessState.TERMINATED → p.turnaroundTime = q.turnaroundTime)

/-- A READY PCB (priorities 5/5) that has waited 10 s — `waitTime` is a
millisecond counter, accrued by `updateStats`. -/
def agedTen : Process :=
  { Process.make 1 "A" 5 1000 with
    state := ProcessState.READY, waitTime := 10000 }

/-- A READY PCB (priorities 5/5) that has waited 5 s. -/
def agedFive : Process :=
  { Process.make 2 "B" 5 1000 with
    state := ProcessState.READY, waitTime := 5000 }

/-- A RUNNING PCB used to instantiate the `execute` theorem: burst
1000 ms of which 300 ms remain. -/
def sampleRunning : Process :=
  { Process.make 3 "R" 5 1000 with
    state := ProcessState.RUNNING, remainingTime := 300 }

/-- A fresh engine after `createProcess("A", priority 5, burst 1000)` at
time 0: pid 1 is READY and enqueued. -/
def sampleCreated : Scheduler :=
  Scheduler.createProcess "A" 5 1000 0 Scheduler.init

/-- `sampleCreated` after the Control API call `terminateProcess(1)` —
a kill issued while pid 1 is READY (and still in the ready queue). -/
def sampleKilled : Scheduler := Scheduler.terminateProcess 1 0 sampleCreated

/-- `sampleKilled` after the engine's next `selectNextProcess()`. -/
def sampleKilledDispatched : Scheduler := Scheduler.selectNextProcess sampleKilled

/-- `sampleKilledDispatched` after the engine executes one quantum. -/
def sampleKilledExecuted : Scheduler :=
  Scheduler.executeCurrent sampleKilledDispatched

/-- A fresh engine after `createProcess("X", priority 11, burst -5)`:
both arguments are outside the ranges the contract admits. -/
def sampleInvalidCreate : Scheduler :=
  Scheduler.createProcess "X" 11 (-5) 0 Scheduler.init

/-- `sampleCreated` after the Control API call `blockProcess(1)` while
pid 1 is READY. -/
def sampleBlockReady : Scheduler := Scheduler.blockProcess 1 0 sampleCreated

/-- Wedge scenario, step 1: two processes, "A" (pid 1, priority 5) and
"B" (pid 2, priority 6), created at time 0. -/
def wedgeCreated : Scheduler :=
  Scheduler.createProcess "B" 6 2000 0 (Scheduler.createProcess "A" 5 2000 0 Scheduler.init)

/-- Step 2: the engine dispatches — pid 1 has the lower key, so it is
popped and marked RUNNING; pid 2 stays queued. -/
def wedgeDispatched : Scheduler := Scheduler.selectNextProcess wedgeCreated

/-- Step 3: the engine executes one quantum of pid 1. -/
def wedgeExecuted : Scheduler := Scheduler.executeCurrent wedgeDispatched

/-- Step 4: during the quantum an external `blockProcess(1)` arrives and
marks the RUNNING pid 1 WAITING. -/
def wedgeBlocked : Scheduler := Scheduler.blockProcess 1 100 wedgeExecuted

/-- Step 5: the engine reaches its post-execute decision (with an I/O
draw of 150 ms, irrelevant since the counter is at 1). -/
def wedgePostExecute : Scheduler := Scheduler.postExecuteDecision 150 wedgeBlocked

/-- Step 6: the rest of the iteration — blocked-list scan, aging,
statistics. -/
def wedgeEndOfIteration : Scheduler :=
  Scheduler.updateStats 100 (Scheduler.applyAging (Scheduler.checkBlocked wedgePostExecute))

/-- Step 7: the next iteration's dispatch attempt. -/
def wedgeNextDispatch : Scheduler := Scheduler.selectNextProcess wedgeEndOfIteration

/-- `sampleCreated` after the engine's first `selectNextProcess()`:
pid 1 is dispatched into the empty running slot. -/
def sampleDispatched : Scheduler := Scheduler.selectNextProcess sampleCreated

/-- `sampleDispatched` after the iteration's `updateStats` publishes a
snapshot. -/
def sampleDispatchedStats : Scheduler := Scheduler.updateStats 0 sampleDispatched

end Sim

/-- Modelled from the spec (section 4.2), for comparison with the code:
`recompute_effective_priority(aging_factor_sec, waited_sec)` sets
`effective_priority := max(0, base_priority − ⌊waited_sec / aging_factor_sec⌋)`
when `aging_factor_sec > 0`, and otherwise leaves it unchanged. -/
def recomputeEffectivePrioritySpec (basePriority oldEffective : Int)
    (agingFactorSec : Int) (waitedSec : Nat) : Int :=
  if agingFactorSec > 0 then
    max 0 (basePriority - (waitedSec : Int) / agingFactorSec)
  else oldEffective

namespace Kernel

/-- `struct custom_pcb` from `kernel_module/custom_scheduler.c` lines 45-63.
Signed C `int` fields become `Int`; the `unsigned long` jiffies and
millisecond counters become `Nat` (no wraparound occurs at the
magnitudes considered). The two intrusive list links are represented by
membership in the queue/list values below. -/
structure custom_pcb where
  pid : Int
  name : String
  base_priority : Int
  effective_priority : Int
  burst_time_ms : Int
  remaining_time_ms : Int
  state : ProcessState
  arrival_time_jiffies : Nat
  wait_time_ms : Nat
  turnaround_time_ms : Nat
  last_update_jiffies : Nat
  wakeup_time_jiffies : Nat
deriving Repr, DecidableEq

/-- The body of the `list_for_each_entry` loop of `apply_aging`
(`custom_scheduler.c` lines 195-207) for one PCB: for a READY member,
`wait_sec = (jiffies - last_update_jiffies) / HZ`, and when
`aging_factor_sec > 0`,
`effective_priority = base_priority - (wait_sec / aging_factor_sec)`
clamped below at zero. The C subtraction mixes `int` and
`unsigned long`; for the magnitudes that occur (both well below 2^31)
the wrapped result stored into the `int` field equals the mathematical
difference, which is what is written here. -/
def agingStep (aging_factor_sec : Int) (now_jiffies hz : Nat)
    (p : custom_pcb) : custom_pcb :=
  if p.state = ProcessState.READY then
    let wait_sec : Nat := (now_jiffies - p.last_update_jiffies) / hz
    if aging_factor_sec > 0 then
      let e := p.base_priority - ((wait_sec / aging_factor_sec.toNat : Nat) : Int)
      { p with effective_priority := if e < 0 then 0 else e }
    else p
  else p

/-- `apply_aging` (`custom_scheduler.c` lines 187-211): updates every
member of the ready queue in place, leaving the list order untouched. -/
def apply_aging (aging_factor_sec : Int) (now_jiffies hz : Nat)
    (q : List custom_pcb) : List custom_pcb :=
  q.map (agingStep aging_factor_sec now_jiffies hz)

/-- `enqueue_process` (`custom_scheduler.c` lines 136-160): walk the ready
list and insert the new PCB before the first member whose
`effective_priority` is strictly greater; append at the tail otherwise. -/
def enqueue_process (proc : custom_pcb) : List custom_pcb → List custom_pcb
  | [] => [proc]
  | p :: rest =>
    if proc.effective_priority < p.effective_priority then proc :: p :: rest
    else p :: enqueue_process proc rest

/-- `dequeue_process` (`custom_scheduler.c` lines 165-181): remove and
return the first entry of the ready list, `none` when empty. -/
def dequeue_process : List custom_pcb → Option (custom_pcb × List custom_pcb)
  | [] => none
  | p :: rest => some (p, rest)

/-- The kernel-module global state relevant to dispatching
(`current_proc`, the ready queue, `stats.context_switches`). -/
structure kernel_state where
  ready_q : List custom_pcb
  current_proc : Option custom_pcb
  context_switches : Nat
deriving Repr, DecidableEq

/-- `select_next_process` (`custom_scheduler.c` lines 216-238): when a
RUNNING process occupies the slot it is kept; otherwise the queue head
is dequeued, marked RUNNING, installed as `current_proc`, and the
context-switch counter is incremented. -/
def select_next_process (st : kernel_state) : kernel_state :=
  match st.current_proc with
  | some cur =>
    if cur.state = ProcessState.RUNNING then st
    else
      match dequeue_process st.ready_q with
      | none => st
      | some (p, rest) =>
        { st with ready_q := rest,
                  current_proc := some { p with state := ProcessState.RUNNING },
                  context_switches := st.context_switches + 1 }
  | none =>
    match dequeue_process st.ready_q with
    | none => st
    | some (p, rest) =>
      { st with ready_q := rest,
                current_proc := some { p with state := ProcessState.RUNNING },
                context_switches := st.context_switches + 1 }

/-- The ready-list ordering invariant claimed by the spec: members in
ascending order of `effective_priority`. -/
def effSorted (q : List custom_pcb) : Prop :=
  List.Sorted (fun a b => a.effective_priority ≤ b.effective_priority) q

instance effSorted.decide (q : List custom_pcb) : Decidable (effSorted q) := by
  unfold effSorted; infer_instance

/-- Ready-queue member for the aging counterexample: just became READY at
jiffy 1000 (no wait yet), priorities 4/4. -/
def kA : custom_pcb :=
  { pid := 1, name := "A", base_priority := 4, effective_priority := 4,
    burst_time_ms := 1000, remaining_time_ms := 1000,
    state := ProcessState.READY, arrival_time_jiffies := 0,
    wait_time_ms := 0, turnaround_time_ms := 0,
    last_update_jiffies := 1000, wakeup_time_jiffies := 0 }

/-- Ready-queue member for the aging counterexample: READY since jiffy 0
(10 s of waiting at HZ = 100), priorities 5/5. -/
def kB : custom_pcb :=
  { pid := 2, name := "B", base_priority := 5, effective_priority := 5,
    burst_time_ms := 1000, remaining_time_ms := 1000,
    state := ProcessState.READY, arrival_time_jiffies := 0,
    wait_time_ms := 0, turnaround_time_ms := 0,
    last_update_jiffies := 0, wakeup_time_jiffies := 0 }

end Kernel

/-! ## Helper lemmas -/

theorem agingStep_pid (a : Int) (now hz : Nat) (p : Kernel.custom_pcb) :
    (Kernel.agingStep a now hz p).pid = p.pid := by
  unfold Kernel.agingStep
  split <;> (try split) <;> rfl

theorem apply_aging_pids (a : Int) (now hz : Nat) (q : List Kernel.custom_pcb) :
    (Kernel.apply_aging a now hz q).map Kernel.custom_pcb.pid
      = q.map Kernel.custom_pcb.pid := by
  unfold Kernel.apply_aging
  rw [List.map_map]
  exact List.map_congr_left (fun p _ => agingStep_pid a now hz p)

theorem mem_enqueue_process (a proc : Kernel.custom_pcb)
    (q : List Kernel.custom_pcb) :
    a ∈ Kernel.enqueue_process proc q ↔ a = proc ∨ a ∈ q := by
  induction q with
  | nil => simp [Kernel.enqueue_process]
  | cons p rest ih =>
    simp only [Kernel.enqueue_process]
    split
    · simp [List.mem_cons]
    · simp only [List.mem_cons, ih]
      tauto

theorem effSorted_enqueue_process (proc : Kernel.custom_pcb)
    (q : List Kernel.custom_pcb) (h : Kernel.effSorted q) :
    Kernel.effSorted (Kernel.enqueue_process proc q) := by
  induction q with
  | nil =>
    simp [Kernel.enqueue_process, Kernel.effSorted]
  | cons p rest ih =>
    rw [Kernel.effSorted, List.sorted_cons] at h
    simp only [Kernel.enqueue_process]
    split
    · rename_i hlt
      rw [Kernel.effSorted, List.sorted_cons]
      refine ⟨?_, ?_⟩
      · intro b hb
        rcases List.mem_cons.mp hb with hb | hb
        · exact hb ▸ le_of_lt hlt
        · exact le_trans (le_of_lt hlt) (h.1 b hb)
      · rw [List.sorted_cons]
        exact ⟨h.1, h.2⟩
    · rename_i hge
      rw [Kernel.effSorted, List.sorted_cons]
      refine ⟨?_, ih h.2⟩
      intro b hb
      rcases (mem_enqueue_process b proc rest).mp hb with hb | hb
      · exact hb ▸ not_lt.mp hge
      · exact h.1 b hb

theorem enqueue_process_eq_insert (proc : Kernel.custom_pcb)
    (q : List Kernel.custom_pcb) :
    Kernel.enqueue_process proc q
      = q.takeWhile (fun p => p.effective_priority ≤ proc.effective_priority)
        ++ proc :: q.dropWhile (fun p => p.effective_priority ≤ proc.effective_priority) := by
  induction q with
  | nil => simp [Kernel.enqueue_process]
  | cons p rest ih =>
    simp only [Kernel.enqueue_process, List.takeWhile_cons, List.dropWhile_cons]
    split
    · rename_i hlt
      have hd : decide (p.effective_priority ≤ proc.effective_priority) = false := by
        simpa using not_le.mpr hlt
      simp [hd]
    · rename_i hge
      have hd : decide (p.effective_priority ≤ proc.effective_priority) = true := by
        simpa using not_lt.mp hge
      simp [hd, ih]

theorem effSorted_head_min (p : Kernel.custom_pcb)
    (rest : List Kernel.custom_pcb) (h : Kernel.effSorted (p :: rest)) :
    ∀ x ∈ p :: rest, p.effective_priority ≤ x.effective_priority := by
  rw [Kernel.effSorted, List.sorted_cons] at h
  intro x hx
  rcases List.mem_cons.mp hx with hx | hx
  · exact hx ▸ le_refl _
  · exact h.1 x hx

theorem updateStatsProc_accrued (quantum now : Int) (q : Sim.Process) :
    Sim.statsAccrued quantum now q (Sim.updateStatsProc now quantum q) := by
  rcases q with ⟨qpid, qname, qbp, qep, qbt, qrt, qst, qarr, qwt, qtt⟩
  cases qst <;> simp [Sim.statsAccrued, Sim.updateStatsProc]

theorem forall2_statsAccrued (quantum now : Int) (l : List Sim.Process) :
    List.Forall₂ (Sim.statsAccrued quantum now) l
      (l.map (Sim.updateStatsProc now quantum)) := by
  induction l with
  | nil => exact List.Forall₂.nil
  | cons q rest ih => exact List.Forall₂.cons (updateStatsProc_accrued quantum now q) ih

/-! ## Claim theorems -/

/-- C1: the spec's aging rule says `effective_priority :=
max(0, base_priority − ⌊waited_sec / aging_factor_sec⌋)` for every ready
PCB. The simulator's `Process::applyAging` instead ADDS the aging term to
the base priority and divides a millisecond counter by a factor given in
seconds: a PCB with base priority 5 that has waited 10 s (waitTime =
10000 ms) under aging factor 5 gets effective priority 5 + 10000/5 = 2005,
where the spec formula gives max(0, 5 − 10/5) = 3. -/
theorem sim_aging_contradicts_spec_formula :
    (Sim.Process.applyAging Sim.agedTen 5).effectivePriority = 2005
    ∧ recomputeEffectivePrioritySpec Sim.agedTen.basePriority
        Sim.agedTen.effectivePriority 5 10 = 3 := by
  decide

/-- C2: the invariant `0 ≤ effective_priority ≤ base_priority ≤ 10` is not
preserved by the simulator's aging: a PCB satisfying the invariant
(priorities 5/5) that has waited 5 s ends aging with effective priority
1005, which exceeds both its base priority and 10. -/
theorem sim_aging_violates_priority_bounds :
    (0 ≤ Sim.agedFive.effectivePriority
      ∧ Sim.agedFive.effectivePriority ≤ Sim.agedFive.basePriority
      ∧ Sim.agedFive.basePriority ≤ 10)
    ∧ (Sim.Process.applyAging Sim.agedFive 5).effectivePriority = 1005
    ∧ ¬ ((Sim.Process.applyAging Sim.agedFive 5).effectivePriority
          ≤ (Sim.Process.applyAging Sim.agedFive 5).basePriority)
    ∧ ¬ ((Sim.Process.applyAging Sim.agedFive 5).effectivePriority ≤ 10) := by
  decide

/-- C3 counterexample: the kernel module's `apply_aging` recomputes keys
in place and does not restore the ordering. Queue [kA, kB] is sorted
(effective priorities 4, 5); after aging at jiffy 1000 with HZ = 100 and
aging factor 5 the keys are [4, 3] — not sorted — and `dequeue_process`
returns the head with key 4 although a member with key 3 is behind it. -/
theorem kernel_apply_aging_breaks_queue_order :
    Kernel.effSorted [Kernel.kA, Kernel.kB]
    ∧ ¬ Kernel.effSorted (Kernel.apply_aging 5 1000 100 [Kernel.kA, Kernel.kB])
    ∧ (Kernel.apply_aging 5 1000 100 [Kernel.kA, Kernel.kB]).map
        Kernel.custom_pcb.effective_priority = [4, 3]
    ∧ (Kernel.dequeue_process (Kernel.apply_aging 5 1000 100 [Kernel.kA, Kernel.kB])).map
        (fun r => r.1.effective_priority) = some 4 := by
  decide

/-- C3 amended: in the kernel ready queue, `enqueue_process` preserves the
ascending ordering and inserts the new PCB at the tail of its priority
class (after the longest prefix of keys ≤ its own); on a sorted queue
`dequeue_process` removes the head, which has minimal key; targeted
removal (a sublist) preserves the ordering; but `apply_aging` only
re-keys members in place, leaving the sequence of pids unchanged, so it
does not re-establish the ordering. -/
theorem kernel_ready_queue_order_maintained_except_aging :
    (∀ (proc : Kernel.custom_pcb) (q : List Kernel.custom_pcb),
        Kernel.effSorted q → Kernel.effSorted (Kernel.enqueue_process proc q))
    ∧ (∀ (proc : Kernel.custom_pcb) (q : List Kernel.custom_pcb),
        Kernel.enqueue_process proc q
          = q.takeWhile (fun p => p.effective_priority ≤ proc.effective_priority)
            ++ proc :: q.dropWhile (fun p => p.effective_priority ≤ proc.effective_priority))
    ∧ (∀ (p : Kernel.custom_pcb) (rest : List Kernel.custom_pcb),
        Kernel.effSorted (p :: rest) →
          Kernel.dequeue_process (p :: rest) = some (p, rest)
          ∧ ∀ x ∈ p :: rest, p.effective_priority ≤ x.effective_priority)
    ∧ (∀ (q₂ q₁ : List Kernel.custom_pcb), q₂.Sublist q₁ →
        Kernel.effSorted q₁ → Kernel.effSorted q₂)
    ∧ (∀ (a : Int) (now hz : Nat) (q : List Kernel.custom_pcb),
        (Kernel.apply_aging a now hz q).map Kernel.custom_pcb.pid
          = q.map Kernel.custom_pcb.pid) := by
  refine ⟨effSorted_enqueue_process, enqueue_process_eq_insert, ?_, ?_, apply_aging_pids⟩
  · intro p rest h
    exact ⟨rfl, effSorted_head_min p rest h⟩
  · intro q₂ q₁ hsub hs
    exact List.Pairwise.sublist hsub hs

/-- Witness for the amended C3 theorem at a concrete input: enqueueing kA
into the sorted singleton [kB] yields a sorted queue. -/
theorem kernel_ready_queue_order_witness :
    Kernel.effSorted (Kernel.enqueue_process Kernel.kA [Kernel.kB]) :=
  kernel_ready_queue_order_maintained_except_aging.1 Kernel.kA [Kernel.kB] (by decide)

/-- C4: a PCB killed while READY is not skipped or dropped: it stays in
the ready queue, the next `selectNextProcess` dispatches it and marks it
RUNNING again, and the following `execute` advances its remaining time
from 1000 ms down to 900 ms. -/
theorem sim_killed_ready_process_redispatched :
    (Sim.lookupProc Sim.sampleKilled 1).map Sim.Process.state
        = some ProcessState.TERMINATED
    ∧ Sim.sampleKilled.readyQueue = [1]
    ∧ Sim.sampleKilledDispatched.currentProcess = some 1
    ∧ (Sim.lookupProc Sim.sampleKilledDispatched 1).map Sim.Process.state
        = some ProcessState.RUNNING
    ∧ (Sim.lookupProc Sim.sampleKilled 1).map Sim.Process.remainingTime = some 1000
    ∧ (Sim.lookupProc Sim.sampleKilledExecuted 1).map Sim.Process.remainingTime
        = some 900 := by
  decide

/-- C5: a valid `createProcess` call allocates the next pid with
effective = base priority, remaining = burst, READY and enqueued — but an
invalid call (priority 11, burst −5) is NOT rejected: it allocates a PCB
all the same, consumes pid 1, and enqueues it READY. -/
theorem sim_create_skips_validation :
    ((Sim.lookupProc Sim.sampleCreated 1).map Sim.Process.basePriority = some 5
      ∧ (Sim.lookupProc Sim.sampleCreated 1).map Sim.Process.effectivePriority = some 5
      ∧ (Sim.lookupProc Sim.sampleCreated 1).map Sim.Process.remainingTime = some 1000
      ∧ (Sim.lookupProc Sim.sampleCreated 1).map Sim.Process.state
          = some ProcessState.READY
      ∧ Sim.sampleCreated.readyQueue = [1]
      ∧ Sim.sampleCreated.nextPid = 2)
    ∧ (Sim.sampleInvalidCreate.allProcesses.length = 1
      ∧ Sim.sampleInvalidCreate.nextPid = 2
      ∧ (Sim.lookupProc Sim.sampleInvalidCreate 1).map Sim.Process.basePriority = some 11
      ∧ (Sim.lookupProc Sim.sampleInvalidCreate 1).map Sim.Process.remainingTime
          = some (-5)
      ∧ (Sim.lookupProc Sim.sampleInvalidCreate 1).map Sim.Process.state
          = some ProcessState.READY
      ∧ Sim.sampleInvalidCreate.readyQueue = [1]) := by
  decide

/-- C6: `blockProcess` on a READY pid has no effect on it: the PCB stays
READY, remains in the ready queue, and nothing is inserted into the
blocked list (so no wakeup deadline exists), contrary to the claimed
READY-case behaviour. -/
theorem sim_block_ignores_ready_process :
    (Sim.lookupProc Sim.sampleCreated 1).map Sim.Process.state
        = some ProcessState.READY
    ∧ (Sim.lookupProc Sim.sampleBlockReady 1).map Sim.Process.state
        = some ProcessState.READY
    ∧ Sim.sampleBlockReady.readyQueue = [1]
    ∧ Sim.sampleBlockReady.blockedProcesses = [] := by
  decide

/-- C7: when an external `blockProcess` marks the running PCB WAITING
during its quantum, the post-execute decision does NOT clear the running
slot (it still holds pid 1), and the next iteration's dispatch leaves it
there, so the READY pid 2 is never dispatched. -/
theorem sim_external_wait_not_cleared_at_post_execute :
    (Sim.lookupProc Sim.wedgeBlocked 1).map Sim.Process.state
        = some ProcessState.WAITING
    ∧ Sim.wedgeBlocked.currentProcess = some 1
    ∧ Sim.wedgePostExecute.currentProcess = some 1
    ∧ Sim.wedgeNextDispatch.currentProcess = some 1
    ∧ (Sim.lookupProc Sim.wedgeNextDispatch 2).map Sim.Process.state
        = some ProcessState.READY
    ∧ Sim.wedgeNextDispatch.readyQueue = [2] := by
  decide

/-- C8: the simulator dispatches pid 1 into the empty running slot, yet
the context-switch counter stays 0 — `selectNextProcess` never increments
it and `updateStats` merely copies it. -/
theorem sim_dispatch_never_increments_context_switches :
    Sim.Scheduler.init.stats.contextSwitchCount = 0
    ∧ Sim.sampleDispatched.currentProcess = some 1
    ∧ (Sim.lookupProc Sim.sampleDispatched 1).map Sim.Process.state
        = some ProcessState.RUNNING
    ∧ Sim.sampleDispatched.stats.contextSwitchCount = 0
    ∧ Sim.sampleDispatchedStats.stats.contextSwitchCount = 0 := by
  decide

/-- C9: for a RUNNING PCB and a non-negative slice, `Process::execute`
subtracts `min(slice, remaining)` from the remaining time, moves to
TERMINATED exactly when the remaining time reaches zero (staying RUNNING
otherwise), touches no other field (it is a PCB-only operation — no
queue is involved), and keeps `0 ≤ remaining ≤ burst`. -/
theorem sim_execute_advances_remaining_and_terminates
    (p : Sim.Process) (slice : Int)
    (hrun : p.state = ProcessState.RUNNING) (hslice : 0 ≤ slice)
    (hlo : 0 ≤ p.remainingTime) (hhi : p.remainingTime ≤ p.burstTime) :
    (Sim.Process.execute p slice).remainingTime
        = p.remainingTime - min slice p.remainingTime
    ∧ ((Sim.Process.execute p slice).state = ProcessState.TERMINATED
        ↔ (Sim.Process.execute p slice).remainingTime = 0)
    ∧ ((Sim.Process.execute p slice).state = ProcessState.TERMINATED
        ∨ (Sim.Process.execute p slice).state = ProcessState.RUNNING)
    ∧ (Sim.Process.execute p slice).burstTime = p.burstTime
    ∧ (Sim.Process.execute p slice).pid = p.pid
    ∧ (Sim.Process.execute p slice).basePriority = p.basePriority
    ∧ (Sim.Process.execute p slice).effectivePriority = p.effectivePriority
    ∧ (Sim.Process.execute p slice).waitTime = p.waitTime
    ∧ 0 ≤ (Sim.Process.execute p slice).remainingTime
    ∧ (Sim.Process.execute p slice).remainingTime
        ≤ (Sim.Process.execute p slice).burstTime
    ∧ (Sim.Process.execute p slice).remainingTime ≤ p.remainingTime := by
  have hne : ¬ (p.state ≠ ProcessState.RUNNING) := by simp [hrun]
  have hex : Sim.Process.execute p slice
      = { p with
          remainingTime := p.remainingTime - min slice p.remainingTime,
          state := if p.remainingTime - min slice p.remainingTime = 0
                   then ProcessState.TERMINATED else p.state } := by
    unfold Sim.Process.execute
    rw [if_neg hne]
  rw [hex]
  refine ⟨rfl, ?_, ?_, rfl, rfl, rfl, rfl, rfl, ?_, ?_, ?_⟩
  · show (if p.remainingTime - min slice p.remainingTime = 0
          then ProcessState.TERMINATED else p.state) = ProcessState.TERMINATED
        ↔ p.remainingTime - min slice p.remainingTime = 0
    split
    · simp_all
    · simp_all [hrun]
  · show (if p.remainingTime - min slice p.remainingTime = 0
          then ProcessState.TERMINATED else p.state) = ProcessState.TERMINATED
        ∨ (if p.remainingTime - min slice p.remainingTime = 0
          then ProcessState.TERMINATED else p.state) = ProcessState.RUNNING
    split
    · exact Or.inl rfl
    · exact Or.inr hrun
  · show (0 : Int) ≤ p.remainingTime - min slice p.remainingTime
    omega
  · show p.remainingTime - min slice p.remainingTime ≤ p.burstTime
    omega
  · show p.remainingTime - min slice p.remainingTime ≤ p.remainingTime
    omega

/-- Witness for C9 at a concrete input: `sampleRunning` (RUNNING, 300 ms
of a 1000 ms burst remaining) executed for a 100 ms slice. -/
theorem sim_execute_advances_witness :
    (Sim.Process.execute Sim.sampleRunning 100).remainingTime
        = Sim.sampleRunning.remainingTime - min 100 Sim.sampleRunning.remainingTime
    ∧ ((Sim.Process.execute Sim.sampleRunning 100).state = ProcessState.TERMINATED
        ↔ (Sim.Process.execute Sim.sampleRunning 100).remainingTime = 0)
    ∧ ((Sim.Process.execute Sim.sampleRunning 100).state = ProcessState.TERMINATED
        ∨ (Sim.Process.execute Sim.sampleRunning 100).state = ProcessState.RUNNING)
    ∧ (Sim.Process.execute Sim.sampleRunning 100).burstTime = Sim.sampleRunning.burstTime
    ∧ (Sim.Process.execute Sim.sampleRunning 100).pid = Sim.sampleRunning.pid
    ∧ (Sim.Process.execute Sim.sampleRunning 100).basePriority
        = Sim.sampleRunning.basePriority
    ∧ (Sim.Process.execute Sim.sampleRunning 100).effectivePriority
        = Sim.sampleRunning.effectivePriority
    ∧ (Sim.Process.execute Sim.sampleRunning 100).waitTime = Sim.sampleRunning.waitTime
    ∧ 0 ≤ (Sim.Process.execute Sim.sampleRunning 100).remainingTime
    ∧ (Sim.Process.execute Sim.sampleRunning 100).remainingTime
        ≤ (Sim.Process.execute Sim.sampleRunning 100).burstTime
    ∧ (Sim.Process.execute Sim.sampleRunning 100).remainingTime
        ≤ Sim.sampleRunning.remainingTime :=
  sim_execute_advances_remaining_and_terminates Sim.sampleRunning 100
    rfl (by decide) (by decide) (by decide)

/-- C10: each of the four Control API calls ends in `updateStats`, and the
resulting all-processes list is related entry-by-entry to the list after
the call's own mutation (and, for `createProcess`, after appending the
new READY PCB): every READY PCB gained exactly one time quantum of
`waitTime`, every non-TERMINATED PCB had `turnaroundTime` refreshed to
`now - arrivalTime`, and no state changed. Wait time therefore accrues
once per Control API call, not only once per engine iteration. -/
theorem control_api_calls_accrue_wait_via_updateStats
    (s : Sim.Scheduler) (pid now : Int) (name : String) (priority burst : Int) :
    List.Forall₂ (Sim.statsAccrued s.timeQuantumMs now)
        (Sim.terminateCore pid s).allProcesses
        (Sim.Scheduler.terminateProcess pid now s).allProcesses
    ∧ List.Forall₂ (Sim.statsAccrued s.timeQuantumMs now)
        (Sim.blockCore pid s).allProcesses
        (Sim.Scheduler.blockProcess pid now s).allProcesses
    ∧ List.Forall₂ (Sim.statsAccrued s.timeQuantumMs now)
        (Sim.unblockCore pid s).allProcesses
        (Sim.Scheduler.unblockProcess pid now s).allProcesses
    ∧ List.Forall₂ (Sim.statsAccrued s.timeQuantumMs now)
        (s.allProcesses ++ [{ Sim.Process.make s.nextPid name priority burst with
                              arrivalTime := now, state := ProcessState.READY }])
        (Sim.Scheduler.createProcess name priority burst now s).allProcesses :=
  ⟨forall2_statsAccrued s.timeQuantumMs now (Sim.terminateCore pid s).allProcesses,
   forall2_statsAccrued s.timeQuantumMs now (Sim.blockCore pid s).allProcesses,
   forall2_statsAccrued s.timeQuantumMs now (Sim.unblockCore pid s).allProcesses,
   forall2_statsAccrued s.timeQuantumMs now
     (s.allProcesses ++ [{ Sim.Process.make s.nextPid name priority burst with
                           arrivalTime := now, state := ProcessState.READY }])⟩

/-- Witness for C10 at a concrete input: killing pid 1 of `sampleCreated`
accrues stats over the one-process list. -/
theorem control_api_accrual_witness :
    List.Forall₂ (Sim.statsAccrued Sim.sampleCreated.timeQuantumMs 0)
        (Sim.terminateCore 1 Sim.sampleCreated).allProcesses
        (Sim.Scheduler.terminateProcess 1 0 Sim.sampleCreated).allProcesses :=
  (control_api_calls_accrue_wait_via_updateStats Sim.sampleCreated 1 0 "A" 5 1000).1

/-! ## Supporting facts about the kernel realisation -/

/-- The kernel module's `select_next_process` increments the
context-switch counter by exactly one when it dispatches (empty or
non-RUNNING slot, non-empty queue) and never decrements it. -/
theorem kernel_select_next_counts_dispatches (st : Kernel.kernel_state) :
    st.context_switches ≤ (Kernel.select_next_process st).context_switches
    ∧ ((Kernel.select_next_process st).context_switches = st.context_switches
        ∨ (Kernel.select_next_process st).context_switches = st.context_switches + 1)
    ∧ (st.current_proc = none → st.ready_q ≠ [] →
        (Kernel.select_next_process st).context_switches = st.context_switches + 1) := by
  rcases hc : st.current_proc with _ | cur
  · cases hq : st.ready_q with
    | nil => simp [Kernel.select_next_process, hc, hq, Kernel.dequeue_process]
    | cons p rest => simp [Kernel.select_next_process, hc, hq, Kernel.dequeue_process]
  · by_cases hr : cur.state = ProcessState.RUNNING
    · simp [Kernel.select_next_process, hc, hr]
    · cases hq : st.ready_q with
      | nil => simp [Kernel.select_next_process, hc, hr, hq, Kernel.dequeue_process]
      | cons p rest => simp [Kernel.select_next_process, hc, hr, hq, Kernel.dequeue_process]

/-- The kernel module's per-PCB aging update does implement the spec's
formula: for a READY member and a positive aging factor it yields
`max(0, base_priority − ⌊wait_sec / aging_factor_sec⌋)`. -/
theorem kernel_agingStep_matches_spec (a : Int) (now hz : Nat)
    (p : Kernel.custom_pcb)
    (hready : p.state = ProcessState.READY) (hpos : 0 < a) :
    (Kernel.agingStep a now hz p).effective_priority
      = recomputeEffectivePrioritySpec p.base_priority p.effective_priority a
          ((now - p.last_update_jiffies) / hz) := by
  unfold Kernel.agingStep recomputeEffectivePrioritySpec
  rw [if_pos hready, if_pos hpos, if_pos hpos]
  have hcast : (((now - p.last_update_jiffies) / hz / a.toNat : Nat) : Int)
      = (((now - p.last_update_jiffies) / hz : Nat) : Int) / a := by
    rw [Int.natCast_div]
    congr 1
    exact Int.toNat_of_nonneg hpos.le
  show (if p.base_priority - (((now - p.last_update_jiffies) / hz / a.toNat : Nat) : Int) < 0
        then 0
        else p.base_priority - (((now - p.last_update_jiffies) / hz / a.toNat : Nat) : Int))
      = max 0 (p.base_priority - (((now - p.last_update_jiffies) / hz : Nat) : Int) / a)
  rw [hcast]
  rcases le_or_lt 0 (p.base_priority - (((now - p.last_update_jiffies) / hz : Nat) : Int) / a)
    with h | h
  · rw [if_neg (not_lt.mpr h), max_eq_right h]
  · rw [if_pos h, max_eq_left h.le]
